import Mathlib

/-!
Verification of the resume / job-description parser service (src/app.py).

The service is a linear pipeline: file upload → PDF text extraction →
prompt construction → one remote chat-completion call → lenient JSON
coercion → HTTP response.  Its effectful parts are embedded shallowly:

* external library behaviour (the JSON decoder `json.loads`, the PDF
  reader, the HTTP transport) enters as explicit oracle parameters
  (`parse`, `pdfLib`, `UpstreamOutcome`);
* the filesystem of temporary files is threaded as an explicit `FS` state;
* a raised `HTTPException` is an `Except.error` carrying status and detail;
* an exception that no handler in the source catches (Python
  `KeyError` / `IndexError` / `TypeError` escaping the `try` blocks) is the
  distinguished error `PipelineError.uncaught`.
-/

/-- A JSON value, the shape of data decoded by the `json` library and of the
upstream completion body. -/
inductive JValue where
  | null
  | bool (b : Bool)
  | num (n : Int)
  | str (s : String)
  | arr (xs : List JValue)
  | obj (fields : List (String × JValue))

/-- Python subscript `j[key]` on a decoded JSON value: a lookup that succeeds
only on an object containing the key (otherwise Python raises
`KeyError` / `TypeError`, modelled by `none`). -/
def getField (j : JValue) (key : String) : Option JValue :=
  match j with
  | .obj fields => fields.lookup key
  | _ => none

/-- Python subscript `j[i]` on a decoded JSON value: succeeds only on an array
long enough (otherwise `IndexError` / `TypeError`, modelled by `none`). -/
def getIndex (j : JValue) (i : Nat) : Option JValue :=
  match j with
  | .arr xs => xs.get? i
  | _ => none

/-- The access `result["choices"][0]["message"]["content"]` performed by
`query_groq` on the decoded upstream body (src/app.py line 209), requiring the
content to be a string (anything else would make the later `json.loads` raise
an uncaught `TypeError`). -/
def extractContent (result : JValue) : Option String :=
  match getField result "choices" with
  | none => none
  | some choices =>
    match getIndex choices 0 with
    | none => none
    | some c0 =>
      match getField c0 "message" with
      | none => none
      | some msg =>
        match getField msg "content" with
        | some (.str s) => some s
        | _ => none

/-- Result of the response coercion step: either a decoded JSON structure or
the raw string passed through unchanged. -/
inductive CoerceResult where
  | parsed (j : JValue)
  | raw (s : String)

/-- The response coercer (src/app.py lines 213-222): try `json.loads` on the
extracted content; on `JSONDecodeError` return the raw string unchanged.
`parse` is the oracle for `json.loads` (`none` = the decoder raises
`JSONDecodeError`).  The function is total: the coercer never raises. -/
def coerceResponse (parse : String → Option JValue) (extracted_info : String) :
    CoerceResult :=
  match parse extracted_info with
  | some parsed_info => .parsed parsed_info
  | none => .raw extracted_info

/-- A raised FastAPI `HTTPException`, carrying the HTTP status code and the
detail message. -/
structure HTTPException where
  status_code : Nat
  detail : String

/-- How a handler invocation can fail: a deliberately raised `HTTPException`,
or an exception no handler in the source catches. -/
inductive PipelineError where
  | http (e : HTTPException)
  | uncaught

/-- Outcome of the single outbound HTTP POST, as seen by the code: either the
transport fails (`httpx.RequestError`: DNS, connection, timeout), or a
response arrives with some status and body text. -/
inductive UpstreamOutcome where
  | networkError (msg : String)
  | response (status : Nat) (body : String)

/-- One chat message of the outbound payload. -/
structure Message where
  role : String
  content : String

/-- The JSON payload `query_groq` sends (src/app.py lines 185-193). -/
structure GroqRequest where
  model : String
  messages : List Message
  temperature : Rat
  response_format_type : String

/-- One outbound HTTP call: URL, payload, and the client timeout in seconds. -/
structure CallSpec where
  url : String
  request : GroqRequest
  timeoutSeconds : Nat

/-- The hardcoded module-level credential (src/app.py line 24). -/
def GROQ_API_KEY : String :=
  "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"

/-- The module-level startup check (src/app.py lines 24-26).  `env` is the
process environment; the source never consults it — the key is the hardcoded
constant, and the emptiness check guards that constant. -/
def startup_check (env : String → Option String) : Except String String :=
  if GROQ_API_KEY = "" then
    Except.error "GROQ_API_KEY environment variable is not set"
  else Except.ok GROQ_API_KEY

/-- The fixed completion endpoint (src/app.py line 28). -/
def GROQ_API_URL : String := "https://api.groq.com/openai/v1/chat/completions"

/-- The resume system prompt, verbatim (src/app.py lines 97-144; braces written
as hex escapes). -/
def resume_system_prompt : String :=
  "\n        You are an expert resume parser. Extract the following information from the resume text:\n        1. Name of the candidate\n        2. Email address\n        3. Phone number\n        4. Technical skills (list)\n        5. Soft skills (list)\n        6. Experience details:\n           - Total years of experience\n           - Job roles (list with company, title, duration)\n           - Industry background\n        7. Education details:\n           - Degree(s)\n           - University/Institution(s)\n           - Tier ranking (if identifiable)\n        8. Projects:\n           - Name\n           - Technologies used\n           - Brief description\n        \n        Return the data in a structured JSON format with these exact keys:\n        \x7b\n            \"name\": \"string\",\n            \"email\": \"string\",\n            \"phone\": \"string\",\n            \"technical_skills\": [\"skill1\", \"skill2\", ...],\n            \"soft_skills\": [\"skill1\", \"skill2\", ...],\n            \"experience\": \x7b\n                \"total_years\": number,\n                \"job_roles\": [\n                    \x7b\"company\": \"string\", \"title\": \"string\", \"duration\": \"string\"\x7d\n                ],\n                \"industry_background\": \"string\"\n            \x7d,\n            \"education\": \x7b\n                \"degrees\": [\"string\"],\n                \"institutions\": [\"string\"],\n                \"tier_ranking\": \"string\"\n            \x7d,\n            \"projects\": [\n                \x7b\n                    \"name\": \"string\",\n                    \"technologies\": [\"string\"],\n                    \"description\": \"string\"\n                \x7d\n            ]\n        \x7d\n        "

/-- The job-description system prompt, verbatim (src/app.py lines 147-177;
braces written as hex escapes). -/
def job_system_prompt : String :=
  "\n        You are an expert job description analyzer. Extract the following information from the job description text:\n        1. Job title\n        2. Company name\n        3. Required skills (list)\n        4. Preferred/nice-to-have skills (list)\n        5. Experience requirements:\n           - Minimum years required\n           - Specific domain experience needed\n        6. Education requirements:\n           - Minimum degree required\n           - Preferred fields of study\n        7. Key responsibilities (list)\n        \n        Return the data in a structured JSON format with these exact keys:\n        \x7b\n            \"title\": \"string\",\n            \"company\": \"string\",\n            \"required_skills\": [\"skill1\", \"skill2\", ...],\n            \"preferred_skills\": [\"skill1\", \"skill2\", ...],\n            \"experience_requirements\": \x7b\n                \"minimum_years\": number,\n                \"domain_experience\": [\"string\"]\n            \x7d,\n            \"education_requirements\": \x7b\n                \"minimum_degree\": \"string\",\n                \"preferred_fields\": [\"string\"]\n            \x7d,\n            \"responsibilities\": [\"string\"]\n        \x7d\n        "

/-- `query_groq` (src/app.py lines 93-226).  Selects the system prompt by the
document-type flag, builds the payload (model, two messages, temperature 0.2,
JSON response format), performs exactly one HTTP POST with a 60-second client
timeout, and processes the outcome:

* `httpx.RequestError` → `HTTPException` 500 with a transport message;
* status ≠ 200 → `HTTPException` with the upstream status and the upstream
  body embedded in the detail;
* status 200 → decode the body (`response.json()`; an undecodable body raises
  an uncaught `json.JSONDecodeError`), subscript down to the first choice
  content (a missing shape raises an uncaught `KeyError` / `IndexError`), and
  coerce the content leniently.

Returns the handler result together with the list of outbound calls made. -/
def query_groq (parse : String → Option JValue) (text : String)
    (is_resume : Bool) (outcome : UpstreamOutcome) :
    Except PipelineError CoerceResult × List CallSpec :=
  let system_prompt := if is_resume then resume_system_prompt else job_system_prompt
  let payload : GroqRequest :=
    { model := "llama3-70b-8192"
      messages := [⟨"system", system_prompt⟩, ⟨"user", text⟩]
      temperature := (0.2 : Rat)
      response_format_type := "json_object" }
  let call : CallSpec := ⟨GROQ_API_URL, payload, 60⟩
  let result : Except PipelineError CoerceResult :=
    match outcome with
    | .networkError msg =>
        .error (.http ⟨500, "Error communicating with Groq API: " ++ msg⟩)
    | .response status body =>
        if status ≠ 200 then
          .error (.http ⟨status, "Groq API Error: " ++ body⟩)
        else
          match parse body with
          | none => .error .uncaught
          | some result =>
            match extractContent result with
            | none => .error .uncaught
            | some extracted_info => .ok (coerceResponse parse extracted_info)
  (result, [call])

/-- Filesystem state relevant to the service: the set of temporary files
currently present on disk (as a list of paths). -/
structure FS where
  tempFiles : List String

/-- Behaviour of the PDF library (`PyPDF2.PdfReader`) on the saved payload:
either it yields the per-page extracted texts, or it raises with a message. -/
inductive PdfParse where
  | ok (pages : List String)
  | error (msg : String)

/-- `extract_text_from_pdf` (src/app.py lines 66-91), with the filesystem
threaded explicitly.  The uploaded payload is written to a fresh temporary
file at `temp_path` (`delete=False`); the PDF library then reads it back
(`pdf` is its outcome on these bytes).  On success the page texts are
concatenated and the temporary file is unlinked; if the library raises, the
`except` clause converts the exception into an `HTTPException` 500 — the
`os.unlink` on the success path is skipped, so the temporary file stays in
the returned filesystem state. -/
def extract_text_from_pdf (fs : FS) (temp_path : String) (pdf : PdfParse) :
    Except HTTPException String × FS :=
  let fs1 : FS := ⟨temp_path :: fs.tempFiles⟩
  match pdf with
  | .ok pages =>
      (Except.ok (String.join pages), ⟨fs1.tempFiles.erase temp_path⟩)
  | .error msg =>
      (Except.error ⟨500, "Error extracting text from PDF: " ++ msg⟩, fs1)

/-- An uploaded file as FastAPI hands it to the route: filename, the declared
content-type header, and the payload bytes. -/
structure UploadFile where
  filename : String
  content_type : String
  payload : List Nat

/-- The content-type gate of `parse_resume` (src/app.py line 235): the upload
is rejected exactly when its declared content type differs from
`application/pdf`.  A function of the header alone. -/
def contentTypeRejected (resume_file : UploadFile) : Bool :=
  resume_file.content_type != "application/pdf"

/-- Observable effects of one `parse_resume` invocation, in order. -/
inductive ResumeEffect where
  | extraction
  | remoteCall

/-- `parse_resume` (src/app.py lines 228-246).  Rejects a non-PDF declared
content type with `HTTPException` 400 before doing anything else; otherwise
extracts text from the payload (`pdfLib` is the PDF library's behaviour on the
payload bytes) and sends it to `query_groq` with the resume flag.  Returns the
handler result, the final filesystem state, and the effect trace (one
`remoteCall` per outbound call `query_groq` made). -/
def parse_resume (pdfLib : List Nat → PdfParse) (parse : String → Option JValue)
    (resume_file : UploadFile) (fs : FS) (temp_path : String)
    (outcome : UpstreamOutcome) :
    Except PipelineError CoerceResult × FS × List ResumeEffect :=
  if contentTypeRejected resume_file then
    (Except.error (.http ⟨400, "Only PDF files are supported"⟩), fs, [])
  else
    match extract_text_from_pdf fs temp_path (pdfLib resume_file.payload) with
    | (Except.error e, fs1) =>
        (Except.error (.http e), fs1, [ResumeEffect.extraction])
    | (Except.ok resume_text, fs1) =>
        let r := query_groq parse resume_text true outcome
        (r.1, fs1, ResumeEffect.extraction ::
          r.2.map (fun _ => ResumeEffect.remoteCall))

/-- `parse_job_description` (src/app.py lines 248-259): the form text goes
straight to `query_groq` with the job-description flag. -/
def parse_job_description (parse : String → Option JValue)
    (job_description : String) (outcome : UpstreamOutcome) :
    Except PipelineError CoerceResult × List CallSpec :=
  query_groq parse job_description false outcome

/-- `health_check` (src/app.py lines 261-265): returns the static payload with
status 200.  The handler is given the upstream outcome and the filesystem
state only to express that it consults neither: the response is a literal and
the state is returned untouched. -/
def health_check (outcome : UpstreamOutcome) (fs : FS) :
    (Nat × JValue) × FS :=
  ((200, JValue.obj [("status", JValue.str "healthy"),
                     ("version", JValue.str "1.0.0")]), fs)

/-- The two error details `query_groq` can produce never coincide: one starts
with the transport-failure text, the other with the upstream-error text. -/
theorem network_detail_ne_http_detail (a b : String) :
    "Error communicating with Groq API: " ++ a ≠ "Groq API Error: " ++ b := by
  intro h
  have h2 : 'E' :: ("rror communicating with Groq API: ".data ++ a.data)
      = 'G' :: ("roq API Error: ".data ++ b.data) := congrArg String.data h
  exact absurd (List.cons.inj h2).1 (by decide)

/-- C1 (counterexample): when the upstream returns status 404, `query_groq`
fails with an error whose HTTP status is 404, not 500 — refuting the claim
that a non-2xx upstream status yields a 500 server error. -/
theorem C1_counterexample :
    (query_groq (fun _ => none) "text" true
        (UpstreamOutcome.response 404 "Not Found")).1
      = Except.error (PipelineError.http ⟨404, "Groq API Error: Not Found"⟩)
    ∧ (404 : Nat) ≠ 500 :=
  ⟨rfl, by decide⟩

/-- C1 (amended): for every request to query_groq in which the upstream
completion endpoint returns a non-2xx HTTP status, the operation fails with
an error whose HTTP status equals the upstream status and whose message
includes the upstream response body. -/
theorem C1_upstream_error_forwarded (parse : String → Option JValue)
    (text : String) (ir : Bool) (status : Nat) (body : String)
    (h : status < 200 ∨ 300 ≤ status) :
    (query_groq parse text ir (UpstreamOutcome.response status body)).1
      = Except.error (PipelineError.http ⟨status, "Groq API Error: " ++ body⟩) := by
  have hne : status ≠ 200 := by omega
  simp [query_groq, hne]

/-- C1 (witness): instance of the amended claim at upstream status 502. -/
theorem C1_upstream_error_forwarded_witness :
    (query_groq (fun _ => none) "text" true
        (UpstreamOutcome.response 502 "Bad Gateway")).1
      = Except.error (PipelineError.http ⟨502, "Groq API Error: Bad Gateway"⟩) :=
  C1_upstream_error_forwarded _ _ _ _ _ (Or.inr (by decide))

/-- C2 (code bug): on the success path the temporary file is unlinked, but on
the path where the payload cannot be parsed as a PDF the exception skips the
unlink and the temporary file is left on disk — the cleanup does not happen
on every exit path. -/
theorem C2_temp_file_leak :
    ((extract_text_from_pdf ⟨[]⟩ "/tmp/tmpupload.pdf"
        (PdfParse.error "EOF marker not found")).2).tempFiles
      = ["/tmp/tmpupload.pdf"]
    ∧ ((extract_text_from_pdf ⟨[]⟩ "/tmp/tmpupload.pdf"
        (PdfParse.ok ["page one"])).2).tempFiles = [] :=
  ⟨rfl, by simp [extract_text_from_pdf]⟩

/-- C3: the response coercer satisfies the passthrough law — a string the
JSON decoder accepts comes back as the decoded structure, a string it rejects
comes back unchanged; being a total function, the coercer never raises. -/
theorem C3_coercer_passthrough (parse : String → Option JValue) (s : String) :
    (∀ j, parse s = some j → coerceResponse parse s = CoerceResult.parsed j)
    ∧ (parse s = none → coerceResponse parse s = CoerceResult.raw s) := by
  constructor
  · intro j hj
    simp [coerceResponse, hj]
  · intro hn
    simp [coerceResponse, hn]

/-- C3 (witness): both passthrough cases at concrete decoders and strings. -/
theorem C3_coercer_passthrough_witness :
    coerceResponse (fun _ => some (JValue.arr [])) "[]"
      = CoerceResult.parsed (JValue.arr [])
    ∧ coerceResponse (fun _ => none) "not json" = CoerceResult.raw "not json" :=
  ⟨(C3_coercer_passthrough (fun _ => some (JValue.arr [])) "[]").1 _ rfl,
   (C3_coercer_passthrough (fun _ => none) "not json").2 rfl⟩

/-- C4: an upload whose declared content type is not application/pdf is
rejected with HTTP 400, the filesystem is untouched, and the effect trace is
empty — neither text extraction nor the remote completion call happens. -/
theorem C4_content_type_gate (pdfLib : List Nat → PdfParse)
    (parse : String → Option JValue) (resume_file : UploadFile) (fs : FS)
    (temp_path : String) (outcome : UpstreamOutcome)
    (h : resume_file.content_type ≠ "application/pdf") :
    parse_resume pdfLib parse resume_file fs temp_path outcome
      = (Except.error (PipelineError.http ⟨400, "Only PDF files are supported"⟩),
         fs, []) := by
  simp [parse_resume, contentTypeRejected, h]

/-- C4 (witness): a text/plain upload is rejected with 400 and no effects. -/
theorem C4_content_type_gate_witness :
    parse_resume (fun _ => PdfParse.error "x") (fun _ => none)
        ⟨"resume.txt", "text/plain", [1, 2, 3]⟩ ⟨[]⟩ "/tmp/t.pdf"
        (UpstreamOutcome.networkError "unreachable")
      = (Except.error (PipelineError.http ⟨400, "Only PDF files are supported"⟩),
         ⟨[]⟩, []) :=
  C4_content_type_gate _ _ _ _ _ _ (by decide)

/-- C5: a transport-level failure of the outbound call makes query_groq fail
with HTTP 500 and a message naming the communication error, and this result
differs from the one produced by any non-200 upstream response. -/
theorem C5_network_failure (parse : String → Option JValue) (text : String)
    (ir : Bool) (msg : String) :
    (query_groq parse text ir (UpstreamOutcome.networkError msg)).1
      = Except.error
          (PipelineError.http ⟨500, "Error communicating with Groq API: " ++ msg⟩)
    ∧ ∀ status body, status ≠ 200 →
        (query_groq parse text ir (UpstreamOutcome.networkError msg)).1
          ≠ (query_groq parse text ir (UpstreamOutcome.response status body)).1 := by
  refine ⟨rfl, ?_⟩
  intro status body hs
  have h0 : (query_groq parse text ir (UpstreamOutcome.networkError msg)).1
      = Except.error
          (PipelineError.http ⟨500, "Error communicating with Groq API: " ++ msg⟩) :=
    rfl
  have h1 : (query_groq parse text ir (UpstreamOutcome.response status body)).1
      = Except.error (PipelineError.http ⟨status, "Groq API Error: " ++ body⟩) := by
    simp [query_groq, hs]
  rw [h0, h1]
  intro hcontra
  simp only [Except.error.injEq, PipelineError.http.injEq,
    HTTPException.mk.injEq] at hcontra
  exact network_detail_ne_http_detail msg body hcontra.2

/-- C5 (witness): a concrete timeout yields the 500 transport error and
differs from the result of a concrete upstream 502 response. -/
theorem C5_network_failure_witness :
    (query_groq (fun _ => none) "text" true
        (UpstreamOutcome.networkError "timed out")).1
      = Except.error
          (PipelineError.http ⟨500, "Error communicating with Groq API: timed out"⟩)
    ∧ (query_groq (fun _ => none) "text" true
        (UpstreamOutcome.networkError "timed out")).1
      ≠ (query_groq (fun _ => none) "text" true
          (UpstreamOutcome.response 502 "Bad Gateway")).1 :=
  ⟨(C5_network_failure (fun _ => none) "text" true "timed out").1,
   (C5_network_failure (fun _ => none) "text" true "timed out").2 502 "Bad Gateway"
     (by decide)⟩

/-- C6: for every input text, document-type flag and upstream outcome, the
outbound traffic of query_groq is exactly one call, to the fixed endpoint,
carrying the model identifier, exactly two messages (the selected system
prompt, then the document text as user message), temperature 0.2, the
json_object response-format directive, and a 60-second client timeout. -/
theorem C6_request_shape (parse : String → Option JValue) (text : String)
    (ir : Bool) (outcome : UpstreamOutcome) :
    (query_groq parse text ir outcome).2
      = [⟨GROQ_API_URL,
          ⟨"llama3-70b-8192",
           [⟨"system", if ir then resume_system_prompt else job_system_prompt⟩,
            ⟨"user", text⟩],
           (0.2 : Rat),
           "json_object"⟩,
          60⟩] := rfl

/-- C7: the health probe returns status 200 with exactly the static payload,
for every upstream outcome, and leaves the filesystem state unchanged. -/
theorem C7_health_probe (outcome : UpstreamOutcome) (fs : FS) :
    health_check outcome fs
      = ((200, JValue.obj [("status", JValue.str "healthy"),
                           ("version", JValue.str "1.0.0")]), fs) := rfl

/-- C8 (code bug): the startup check succeeds for every process environment —
in particular one supplying no credential — because the key is a hardcoded
constant and the environment is never consulted; startup does not fail fast
when no external credential is present. -/
theorem C8_startup_ignores_env (env : String → Option String) :
    startup_check env = Except.ok GROQ_API_KEY := rfl

/-- C9: when the upstream returns status 200 but its decoded JSON body lacks
a choices list whose first element carries a message object with a string
content field, query_groq ends in the uncaught-exception error, which is not
a raised HTTPException of any status — in particular not the defined 500
server error. -/
theorem C9_malformed_success_body (parse : String → Option JValue)
    (text : String) (ir : Bool) (body : String) (j : JValue)
    (h1 : parse body = some j) (h2 : extractContent j = none) :
    (query_groq parse text ir (UpstreamOutcome.response 200 body)).1
      = Except.error PipelineError.uncaught
    ∧ ∀ e : HTTPException, PipelineError.uncaught ≠ PipelineError.http e := by
  constructor
  · simp [query_groq, h1, h2]
  · intro e h
    exact PipelineError.noConfusion h

/-- C9 (witness): a 200 response whose body decodes to the empty object makes
the content access fail and the handler end in the uncaught error. -/
theorem C9_malformed_success_body_witness :
    (query_groq (fun _ => some (JValue.obj [])) "text" true
        (UpstreamOutcome.response 200 "\x7b\x7d")).1
      = Except.error PipelineError.uncaught :=
  (C9_malformed_success_body (fun _ => some (JValue.obj [])) "text" true
    "\x7b\x7d" (JValue.obj []) rfl rfl).1

/-- C10: the 400-rejection decision of the resume endpoint is a function of
the declared content-type header alone — two uploads with equal headers and
arbitrary payload bytes get the same accept/reject outcome — and any upload
labelled application/pdf proceeds to extraction whatever its bytes are. -/
theorem C10_rejection_depends_only_on_content_type (u1 u2 : UploadFile)
    (h : u1.content_type = u2.content_type) :
    contentTypeRejected u1 = contentTypeRejected u2
    ∧ ∀ pdfLib parse fs temp_path outcome,
        u1.content_type = "application/pdf" →
        ResumeEffect.extraction ∈
          (parse_resume pdfLib parse u1 fs temp_path outcome).2.2 := by
  constructor
  · simp [contentTypeRejected, h]
  · intro pdfLib parse fs temp_path outcome hpdf
    have hr : contentTypeRejected u1 = false := by
      simp [contentTypeRejected, hpdf]
    simp only [parse_resume, hr, Bool.false_eq_true, if_false]
    rcases hm : extract_text_from_pdf fs temp_path (pdfLib u1.payload) with ⟨r, fs1⟩
    cases r <;> simp [hm]

/-- C10 (witness): two application/pdf uploads with different bytes are both
accepted by the gate, and a non-PDF payload labelled application/pdf reaches
extraction. -/
theorem C10_rejection_depends_only_on_content_type_witness :
    contentTypeRejected ⟨"a.pdf", "application/pdf", [1]⟩
      = contentTypeRejected ⟨"b.pdf", "application/pdf", [2]⟩
    ∧ ResumeEffect.extraction ∈
        (parse_resume (fun _ => PdfParse.error "not a pdf") (fun _ => none)
          ⟨"a.pdf", "application/pdf", [1]⟩ ⟨[]⟩ "/tmp/t.pdf"
          (UpstreamOutcome.networkError "e")).2.2 :=
  ⟨(C10_rejection_depends_only_on_content_type
      ⟨"a.pdf", "application/pdf", [1]⟩ ⟨"b.pdf", "application/pdf", [2]⟩ rfl).1,
   (C10_rejection_depends_only_on_content_type
      ⟨"a.pdf", "application/pdf", [1]⟩ ⟨"b.pdf", "application/pdf", [2]⟩ rfl).2
     (fun _ => PdfParse.error "not a pdf") (fun _ => none) ⟨[]⟩ "/tmp/t.pdf"
     (UpstreamOutcome.networkError "e") rfl⟩
